import Mathlib

/-!
Shallow embedding of `src/factory.rs` of the `gfx_device_gl` repository:
the GL resource factory (buffer/array-buffer/frame-buffer/surface/texture/
sampler creation, buffer and texture updates, buffer mapping).

The native GL context is modelled as a state carrying a fresh-name counter
and the trace of native calls issued so far; every embedded operation
threads this state explicitly.  Functions of the missing `src/tex.rs`
module (`make_surface`, `make_with_storage`, `make_without_storage`,
`make_sampler`, `update_texture`) are modelled from the spec and say so in
their doc comments.
-/

namespace GfxGl

/-- GL enum `GL_ARRAY_BUFFER`. -/
def ARRAY_BUFFER : Nat := 0x8892

/-- GL enum `GL_ELEMENT_ARRAY_BUFFER`. -/
def ELEMENT_ARRAY_BUFFER : Nat := 0x8893

/-- GL enum `GL_STATIC_DRAW`. -/
def STATIC_DRAW : Nat := 0x88E4

/-- GL enum `GL_DYNAMIC_DRAW`. -/
def DYNAMIC_DRAW : Nat := 0x88E8

/-- GL enum `GL_STREAM_DRAW`. -/
def STREAM_DRAW : Nat := 0x88E0

/-- GL enum `GL_READ_ONLY`. -/
def READ_ONLY : Nat := 0x88B8

/-- GL enum `GL_WRITE_ONLY`. -/
def WRITE_ONLY : Nat := 0x88B9

/-- GL enum `GL_READ_WRITE`. -/
def READ_WRITE : Nat := 0x88BA

/-- `gfx::device::Capabilities`: the immutable capability table
(only the boolean flags consulted by `factory.rs`). -/
structure Capabilities where
  array_buffer_supported : Bool
  render_targets_supported : Bool
  sampler_objects_supported : Bool
  immutable_storage_supported : Bool
  srgb_color_supported : Bool
deriving DecidableEq, Repr

/-- `gfx::device::BufferRole`. -/
inductive BufferRole where
  | Vertex
  | Index
deriving DecidableEq, Repr

/-- `gfx::device::BufferUsage`. -/
inductive BufferUsage where
  | Static
  | Dynamic
  | Stream
deriving DecidableEq, Repr

/-- `gfx::device::BufferInfo`: the metadata recorded with a buffer handle. -/
structure BufferInfo where
  role : BufferRole
  usage : BufferUsage
  size : Nat
deriving DecidableEq, Repr

/-- A texture format, reduced to the one query `factory.rs` makes of it:
`does_convert_gamma` (the format is external to this crate and is only
consulted through this predicate). -/
structure Format where
  convert_gamma : Bool
deriving DecidableEq, Repr

/-- `Format::does_convert_gamma`. -/
def Format.does_convert_gamma (f : Format) : Bool := f.convert_gamma

/-- `gfx::tex::TextureKind`, reduced to its alternatives. -/
inductive TextureKind where
  | Texture1D
  | Texture2D
  | Texture3D
  | TextureCube
deriving DecidableEq, Repr

/-- `gfx::tex::SurfaceInfo`: description of a render-target surface. -/
structure SurfaceInfo where
  width : Nat
  height : Nat
  format : Format
  aa_mode : Option Nat
deriving DecidableEq, Repr

/-- `gfx::tex::TextureInfo`: description of a texture. -/
structure TextureInfo where
  width : Nat
  height : Nat
  depth : Nat
  levels : Nat
  kind : TextureKind
  format : Format
deriving DecidableEq, Repr

/-- `gfx::tex::ImageInfo`: the region described by a texture update
(carried opaquely through the factory). -/
structure ImageInfo where
  xoffset : Nat
  yoffset : Nat
  zoffset : Nat
  width : Nat
  height : Nat
  depth : Nat
  mipmap : Nat
deriving DecidableEq, Repr

/-- `gfx::tex::SamplerInfo`: sampler filtering/wrapping parameters
(carried opaquely through the factory). -/
structure SamplerInfo where
  filtering : Nat
  wrap_mode : Nat
deriving DecidableEq, Repr

/-- One native GL call, as recorded in the trace. -/
inductive GLCall where
  | GenBuffers (name : Nat)
  | BindBuffer (target : Nat) (buffer : Nat)
  | BufferData (target : Nat) (size : Nat) (usage : Nat)
  | BufferSubData (target : Nat) (offset : Nat) (size : Nat) (data : List Nat)
  | GenVertexArrays (name : Nat)
  | GenFramebuffers (name : Nat)
  | GenRenderbuffers (name : Nat)
  | RenderbufferStorage (info : SurfaceInfo)
  | GenTextures (name : Nat)
  | TexStorage (info : TextureInfo)
  | TexImage (info : TextureInfo)
  | GenSamplers (name : Nat)
  | SamplerParameter (info : SamplerInfo)
  | UpdateTexture (kind : TextureKind) (name : Nat) (img : ImageInfo) (dataLen : Nat)
  | MapBuffer (target : Nat) (access : Nat)
  | UnmapBuffer (target : Nat)
deriving DecidableEq, Repr

/-- The native GL context state: a fresh-name allocator (names returned by
the `Gen*` calls; 0 is reserved for "default/none") and the trace of
native calls issued so far. -/
structure GlState where
  nextName : Nat
  calls : List GLCall
deriving DecidableEq, Repr

/-- Issue one native call (append it to the trace). -/
def GlState.issue (g : GlState) (c : GLCall) : GlState :=
  { g with calls := g.calls ++ [c] }

/-- Issue a `Gen*` call through constructor `mk`, returning the freshly
allocated non-zero name. -/
def GlState.gen (g : GlState) (mk : Nat → GLCall) : Nat × GlState :=
  (g.nextName, { nextName := g.nextName + 1, calls := g.calls ++ [mk g.nextName] })

/-- A raw buffer handle: native name plus the `BufferInfo` recorded at
creation (`handle::RawBuffer`). -/
structure RawBuffer where
  name : Nat
  info : BufferInfo
deriving DecidableEq, Repr

/-- A surface handle: native name plus its `SurfaceInfo`. -/
structure SurfaceHandle where
  name : Nat
  info : SurfaceInfo
deriving DecidableEq, Repr

/-- A texture handle: native name plus its `TextureInfo`. -/
structure TextureHandle where
  name : Nat
  info : TextureInfo
deriving DecidableEq, Repr

/-- A sampler handle: native name plus its `SamplerInfo`. -/
structure SamplerHandle where
  name : Nat
  info : SamplerInfo
deriving DecidableEq, Repr

/-- `gfx::tex::SurfaceError`, as used by `factory.rs` for surface
creation failures. -/
inductive SurfaceError where
  | UnsupportedGamma
deriving DecidableEq, Repr

/-- `gfx::tex::TextureError`, as used by `factory.rs` for texture
creation/update failures. -/
inductive TextureError where
  | InvalidInfo (info : TextureInfo)
  | UnsupportedGamma
deriving DecidableEq, Repr

/-- `gfx::device::MapAccess`. -/
inductive MapAccess where
  | Readable
  | Writable
  | RW
deriving DecidableEq, Repr

/-- `RawMapping` from `factory.rs`: the raw pointer returned by
`glMapBuffer` together with the bind target recorded for unmapping. -/
structure RawMapping where
  pointer : Nat
  target : Nat
deriving DecidableEq, Repr

/-- The `Factory` of `factory.rs`: capability table, GL context state, and
the persistent handle manager's per-kind registries (`handles.make_*`
registers into these lists). The frame-scoped manager only resolves
handles to names, which the embedding does via the handle's `name` field. -/
structure Factory where
  caps : Capabilities
  gls : GlState
  buffers : List RawBuffer
  arrayBuffers : List Nat
  frameBuffers : List Nat
  surfaces : List SurfaceHandle
  textures : List TextureHandle
  samplers : List SamplerHandle
deriving DecidableEq, Repr

/-- The bind target derived from a buffer role (the `match` in
`update_sub_buffer` and `init_buffer`). -/
def roleTarget (role : BufferRole) : Nat :=
  match role with
  | .Vertex => ARRAY_BUFFER
  | .Index => ELEMENT_ARRAY_BUFFER

/-- The GL usage hint derived from a buffer usage (the `match` in
`init_buffer`). -/
def usageHint (usage : BufferUsage) : Nat :=
  match usage with
  | .Static => STATIC_DRAW
  | .Dynamic => DYNAMIC_DRAW
  | .Stream => STREAM_DRAW

/-- `update_sub_buffer` (free function, factory.rs lines 32-46): bind the
buffer at the role-derived target and issue a `BufferSubData` upload.
The source passes a raw pointer and a byte count; the embedding carries
the bytes themselves, whose length is the byte count. -/
def update_sub_buffer (g : GlState) (buffer : Nat) (data : List Nat)
    (offset : Nat) (role : BufferRole) : GlState :=
  let target := roleTarget role
  (g.issue (.BindBuffer target buffer)).issue
    (.BufferSubData target offset data.length data)

/-- `Factory::create_buffer_internal`: generate a fresh buffer name. -/
def Factory.create_buffer_internal (f : Factory) : Nat × Factory :=
  let (name, g) := f.gls.gen .GenBuffers
  (name, { f with gls := g })

/-- `Factory::init_buffer`: bind the buffer and allocate storage of
`info.size` bytes with the usage hint derived from `info.usage`. -/
def Factory.init_buffer (f : Factory) (buffer : Nat) (info : BufferInfo) : Factory :=
  let target := roleTarget info.role
  let usage := usageHint info.usage
  let g := (f.gls.issue (.BindBuffer target buffer)).issue
    (.BufferData target info.size usage)
  { f with gls := g }

/-- `Factory::create_buffer_raw` (factory.rs lines 160-170): create a
buffer of the given size and usage; the recorded role is hardcoded to
`Vertex`. -/
def Factory.create_buffer_raw (f : Factory) (size : Nat) (usage : BufferUsage) :
    RawBuffer × Factory :=
  let (name, f) := f.create_buffer_internal
  let info : BufferInfo := { role := .Vertex, usage := usage, size := size }
  let f := f.init_buffer name info
  let h : RawBuffer := { name := name, info := info }
  (h, { f with buffers := f.buffers ++ [h] })

/-- `Factory::create_buffer_static_raw` (factory.rs lines 172-184): create
a buffer with the given role, `Static` usage and size equal to the data
length, then upload the data via `update_sub_buffer` at offset 0. -/
def Factory.create_buffer_static_raw (f : Factory) (data : List Nat)
    (role : BufferRole) : RawBuffer × Factory :=
  let (name, f) := f.create_buffer_internal
  let info : BufferInfo := { role := role, usage := .Static, size := data.length }
  let f := f.init_buffer name info
  let f := { f with gls := update_sub_buffer f.gls name data 0 role }
  let h : RawBuffer := { name := name, info := info }
  (h, { f with buffers := f.buffers ++ [h] })

/-- `Factory::create_array_buffer` (factory.rs lines 186-198): capability
error when vertex-array objects are unsupported (no native call);
otherwise generate a vertex-array object and register the handle. -/
def Factory.create_array_buffer (f : Factory) : Except Unit Nat × Factory :=
  if f.caps.array_buffer_supported then
    let (name, g) := f.gls.gen .GenVertexArrays
    (.ok name, { f with gls := g, arrayBuffers := f.arrayBuffers ++ [name] })
  else
    (.error (), f)

/-- `Factory::create_frame_buffer` (factory.rs lines 225-236): panics
(modelled as `none`) when render targets are unsupported; otherwise
generates a framebuffer and registers the handle. -/
def Factory.create_frame_buffer (f : Factory) : Option (Nat × Factory) :=
  if !f.caps.render_targets_supported then
    none
  else
    let (name, g) := f.gls.gen .GenFramebuffers
    some (name, { f with gls := g, frameBuffers := f.frameBuffers ++ [name] })

/-- Modelled from the spec: `tex::make_surface` of the missing
`src/tex.rs`. Per spec section 6, the native-configuration collaborator
performs format-specific storage allocation: it generates a renderbuffer
name and allocates its storage, both native calls, and returns the name.
Per spec sections 7 and 8, surface creation fails only for the gamma
capability reason, which `factory.rs` checks before calling here, so the
collaborator itself succeeds. -/
def make_surface (g : GlState) (info : SurfaceInfo) :
    Except SurfaceError Nat × GlState :=
  let (name, g) := g.gen .GenRenderbuffers
  (.ok name, g.issue (.RenderbufferStorage info))

/-- Modelled from the spec: `tex::make_with_storage` of the missing
`src/tex.rs` (immutable-storage path). Generates a texture name and
allocates fixed immutable storage, returning the name. -/
def make_with_storage (g : GlState) (info : TextureInfo) :
    Except TextureError Nat × GlState :=
  let (name, g) := g.gen .GenTextures
  (.ok name, g.issue (.TexStorage info))

/-- Modelled from the spec: `tex::make_without_storage` of the missing
`src/tex.rs` (mutable-storage path). Generates a texture name and
allocates mutable/resizable storage, returning the name. -/
def make_without_storage (g : GlState) (info : TextureInfo) :
    Except TextureError Nat × GlState :=
  let (name, g) := g.gen .GenTextures
  (.ok name, g.issue (.TexImage info))

/-- Modelled from the spec: `tex::make_sampler` of the missing
`src/tex.rs`. Generates a sampler object and configures its parameters,
returning the name. -/
def make_sampler (g : GlState) (info : SamplerInfo) : Nat × GlState :=
  let (name, g) := g.gen .GenSamplers
  (name, g.issue (.SamplerParameter info))

/-- Modelled from the spec: `tex::update_texture` of the missing
`src/tex.rs`. Issues the native texture sub-image upload for the given
kind, name, image region and data; per spec section 4.3 it returns a
typed error if the device-level update fails, an outcome external to the
factory, so the embedding records the call and reports success. -/
def update_texture (g : GlState) (kind : TextureKind) (name : Nat)
    (img : ImageInfo) (dataLen : Nat) : Except TextureError Unit × GlState :=
  (.ok (), g.issue (.UpdateTexture kind name img dataLen))

/-- `Factory::create_surface` (factory.rs lines 238-245): gamma capability
guard, then delegate to `tex::make_surface` and register the handle. -/
def Factory.create_surface (f : Factory) (info : SurfaceInfo) :
    Except SurfaceError SurfaceHandle × Factory :=
  if info.format.does_convert_gamma && !f.caps.srgb_color_supported then
    (.error .UnsupportedGamma, f)
  else
    match make_surface f.gls info with
    | (.ok suf, g) =>
        let h : SurfaceHandle := { name := suf, info := info }
        (.ok h, { f with gls := g, surfaces := f.surfaces ++ [h] })
    | (.error e, g) => (.error e, { f with gls := g })

/-- `Factory::create_texture` (factory.rs lines 247-262): reject zero
width/height/levels, then the gamma capability guard, then branch on
immutable-storage support and register the handle. -/
def Factory.create_texture (f : Factory) (info : TextureInfo) :
    Except TextureError TextureHandle × Factory :=
  if info.width = 0 || info.height = 0 || info.levels = 0 then
    (.error (.InvalidInfo info), f)
  else if info.format.does_convert_gamma && !f.caps.srgb_color_supported then
    (.error .UnsupportedGamma, f)
  else
    let res := if f.caps.immutable_storage_supported then
      make_with_storage f.gls info
    else
      make_without_storage f.gls info
    match res with
    | (.ok t, g) =>
        let h : TextureHandle := { name := t, info := info }
        (.ok h, { f with gls := g, textures := f.textures ++ [h] })
    | (.error e, g) => (.error e, { f with gls := g })

/-- `Factory::create_sampler` (factory.rs lines 264-272): when sampler
objects are supported, create one natively; otherwise use the zero
sentinel name with no native call. Always registers and returns a
handle. -/
def Factory.create_sampler (f : Factory) (info : SamplerInfo) :
    SamplerHandle × Factory :=
  let (sam, f) := if f.caps.sampler_objects_supported then
    let (sam, g) := make_sampler f.gls info
    (sam, { f with gls := g })
  else
    (0, f)
  let h : SamplerHandle := { name := sam, info := info }
  (h, { f with samplers := f.samplers ++ [h] })

/-- `Factory::update_buffer_raw` (factory.rs lines 274-280): a
`debug_assert` checks `offset + data.len() <= buffer.size` before the
sub-range upload; the embedding returns `none` when the assertion fires
(so no upload is recorded) and otherwise issues the upload via
`update_sub_buffer` with the buffer's recorded role. -/
def Factory.update_buffer_raw (f : Factory) (buffer : RawBuffer)
    (data : List Nat) (offset_bytes : Nat) : Option Factory :=
  if offset_bytes + data.length ≤ buffer.info.size then
    let g := update_sub_buffer f.gls buffer.name data offset_bytes buffer.info.role
    some { f with gls := g }
  else
    none

/-- `Factory::update_texture_raw` (factory.rs lines 282-294): use the
caller-supplied kind when present, else the kind recorded at creation,
and delegate to `tex::update_texture`. -/
def Factory.update_texture_raw (f : Factory) (texture : TextureHandle)
    (img : ImageInfo) (data : List Nat) (optkind : Option TextureKind) :
    Except TextureError Unit × Factory :=
  let kind := optkind.getD texture.info.kind
  let (r, g) := update_texture f.gls kind texture.name img data.length
  (r, { f with gls := g })

/-- The GL access enum derived from a `MapAccess` (the `match` in
`map_buffer_raw`). -/
def accessEnum (access : MapAccess) : Nat :=
  match access with
  | .Readable => READ_ONLY
  | .Writable => WRITE_ONLY
  | .RW => READ_WRITE

/-- `Factory::map_buffer_raw` (factory.rs lines 301-314): bind the buffer
to `GL_ARRAY_BUFFER`, issue `glMapBuffer` on that target, and return a
mapping recording the driver-returned pointer (`driverPtr`, chosen by the
driver and so a parameter here) and the `GL_ARRAY_BUFFER` target. -/
def Factory.map_buffer_raw (f : Factory) (buf : RawBuffer)
    (access : MapAccess) (driverPtr : Nat) : RawMapping × Factory :=
  let g := (f.gls.issue (.BindBuffer ARRAY_BUFFER buf.name)).issue
    (.MapBuffer ARRAY_BUFFER (accessEnum access))
  ({ pointer := driverPtr, target := ARRAY_BUFFER }, { f with gls := g })

/-- `Factory::unmap_buffer_raw` (factory.rs lines 316-318): issue
`glUnmapBuffer` on the mapping's recorded target. -/
def Factory.unmap_buffer_raw (f : Factory) (m : RawMapping) : Factory :=
  { f with gls := f.gls.issue (.UnmapBuffer m.target) }

/-! Concrete fixtures used to evaluate the operations at specific
inputs. -/

/-- A capability table with every feature supported. -/
def capsAll : Capabilities :=
  { array_buffer_supported := true
    render_targets_supported := true
    sampler_objects_supported := true
    immutable_storage_supported := true
    srgb_color_supported := true }

/-- A capability table lacking only sRGB support. -/
def capsNoSrgb : Capabilities :=
  { capsAll with srgb_color_supported := false }

/-- A capability table lacking only render-target support. -/
def capsNoRT : Capabilities :=
  { capsAll with render_targets_supported := false }

/-- A capability table lacking only sampler-object support. -/
def capsNoSampler : Capabilities :=
  { capsAll with sampler_objects_supported := false }

/-- A capability table lacking only vertex-array-object support. -/
def capsNoVAO : Capabilities :=
  { capsAll with array_buffer_supported := false }

/-- A fresh factory over the given capability table (empty trace,
first fresh name 1, empty registries). -/
def mkFactory (caps : Capabilities) : Factory :=
  { caps := caps
    gls := { nextName := 1, calls := [] }
    buffers := []
    arrayBuffers := []
    frameBuffers := []
    surfaces := []
    textures := []
    samplers := [] }

/-- A surface description with zero width and a non-gamma format. -/
def surfZero : SurfaceInfo :=
  { width := 0, height := 1, format := { convert_gamma := false }, aa_mode := none }

/-- A texture description with zero width and a gamma-converting format. -/
def texZeroGamma : TextureInfo :=
  { width := 0, height := 1, depth := 1, levels := 1
    kind := .Texture2D, format := { convert_gamma := true } }

/-! Theorems settling the claims. -/

/-- Claim C10: for every size and usage, `create_buffer_raw` returns a
handle whose recorded info has role `Vertex` (hardcoded), the supplied
usage, and the supplied size; moreover the handle is registered. -/
theorem create_buffer_raw_info (f : Factory) (size : Nat) (usage : BufferUsage) :
    ((f.create_buffer_raw size usage).1).info =
      { role := .Vertex, usage := usage, size := size } ∧
    (f.create_buffer_raw size usage).1 ∈ (f.create_buffer_raw size usage).2.buffers := by
  constructor
  · rfl
  · simp [Factory.create_buffer_raw, Factory.create_buffer_internal,
      Factory.init_buffer, GlState.gen, GlState.issue]

/-- Claim C4: `create_buffer_static_raw data role` returns a handle whose
info records the given role, `Static` usage and size `data.length`, and
its native trace appends exactly: buffer generation, a bind plus storage
allocation (`BufferData`), and then one single sub-range upload
(`BufferSubData`) at offset 0 carrying `data`. -/
theorem create_buffer_static_raw_spec (f : Factory) (data : List Nat)
    (role : BufferRole) :
    ((f.create_buffer_static_raw data role).1).info =
      { role := role, usage := .Static, size := data.length } ∧
    ((f.create_buffer_static_raw data role).2).gls.calls = f.gls.calls ++
      [.GenBuffers f.gls.nextName,
       .BindBuffer (roleTarget role) f.gls.nextName,
       .BufferData (roleTarget role) data.length (usageHint .Static),
       .BindBuffer (roleTarget role) f.gls.nextName,
       .BufferSubData (roleTarget role) 0 data.length data] := by
  constructor
  · rfl
  · simp [Factory.create_buffer_static_raw, Factory.create_buffer_internal,
      Factory.init_buffer, update_sub_buffer, GlState.gen, GlState.issue]

/-- Claim C9: `map_buffer_raw` binds the buffer to the array-buffer target
and returns a mapping whose recorded target is always `ARRAY_BUFFER`,
whatever the buffer's recorded role; `unmap_buffer_raw` unmaps using
exactly the view's recorded target. -/
theorem map_buffer_raw_target (f : Factory) (buf : RawBuffer)
    (access : MapAccess) (ptr : Nat) :
    ((f.map_buffer_raw buf access ptr).1).target = ARRAY_BUFFER ∧
    ((f.map_buffer_raw buf access ptr).2).gls.calls = f.gls.calls ++
      [.BindBuffer ARRAY_BUFFER buf.name,
       .MapBuffer ARRAY_BUFFER (accessEnum access)] ∧
    (∀ m : RawMapping,
      (f.unmap_buffer_raw m).gls.calls = f.gls.calls ++ [.UnmapBuffer m.target]) := by
  refine ⟨rfl, ?_, ?_⟩
  · simp [Factory.map_buffer_raw, GlState.issue]
  · intro m
    simp [Factory.unmap_buffer_raw, GlState.issue]

/-- Claim C8: `update_texture_raw` issues the native texture update with
the caller-supplied kind when one is given for this call, and with the
kind recorded in the texture's creation info otherwise; the registered
texture handles (and so every texture's recorded info) are unchanged. -/
theorem update_texture_raw_kind (f : Factory) (t : TextureHandle)
    (img : ImageInfo) (data : List Nat) (optkind : Option TextureKind) :
    (∀ k, optkind = some k →
      ((f.update_texture_raw t img data optkind).2).gls.calls =
        f.gls.calls ++ [.UpdateTexture k t.name img data.length]) ∧
    (optkind = none →
      ((f.update_texture_raw t img data optkind).2).gls.calls =
        f.gls.calls ++ [.UpdateTexture t.info.kind t.name img data.length]) ∧
    ((f.update_texture_raw t img data optkind).2).textures = f.textures := by
  refine ⟨?_, ?_, rfl⟩
  · intro k hk
    subst hk
    simp [Factory.update_texture_raw, update_texture, GlState.issue]
  · intro hk
    subst hk
    simp [Factory.update_texture_raw, update_texture, GlState.issue]

/-- Witness for C8 at a concrete factory, texture handle and kind
override. -/
theorem update_texture_raw_kind_witness :
    (((mkFactory capsAll).update_texture_raw
        { name := 5, info := texZeroGamma }
        { xoffset := 0, yoffset := 0, zoffset := 0
          width := 1, height := 1, depth := 1, mipmap := 0 }
        [7] (some .TextureCube)).2).gls.calls =
      (mkFactory capsAll).gls.calls ++
        [.UpdateTexture .TextureCube 5
          { xoffset := 0, yoffset := 0, zoffset := 0
            width := 1, height := 1, depth := 1, mipmap := 0 } 1] :=
  (update_texture_raw_kind (mkFactory capsAll)
    { name := 5, info := texZeroGamma }
    { xoffset := 0, yoffset := 0, zoffset := 0
      width := 1, height := 1, depth := 1, mipmap := 0 }
    [7] (some .TextureCube)).1 .TextureCube rfl

/-- Claim C2: `create_frame_buffer` panics (modelled as `none`, not a
typed error — the function's type has no error alternative) exactly when
render targets are unsupported; when supported it generates a native
framebuffer and returns a name registered in the factory. -/
theorem create_frame_buffer_spec (f : Factory) :
    (f.create_frame_buffer = none ↔ f.caps.render_targets_supported = false) ∧
    (∀ name f', f.create_frame_buffer = some (name, f') →
      f'.gls.calls = f.gls.calls ++ [.GenFramebuffers name] ∧
      name ∈ f'.frameBuffers) := by
  cases hrt : f.caps.render_targets_supported with
  | false =>
      refine ⟨by simp [Factory.create_frame_buffer, hrt], ?_⟩
      intro name f' h
      simp [Factory.create_frame_buffer, hrt] at h
  | true =>
      refine ⟨by simp [Factory.create_frame_buffer, hrt, GlState.gen], ?_⟩
      intro name f' h
      simp only [Factory.create_frame_buffer, hrt, Bool.not_true,
        Bool.false_eq_true, if_false, GlState.gen, Option.some.injEq,
        Prod.mk.injEq] at h
      obtain ⟨hn, hf⟩ := h
      subst hn
      subst hf
      simp

/-- Witness for C2: on a fresh fully-capable factory, `create_frame_buffer`
returns name 1 with a `GenFramebuffers 1` call appended and 1 registered;
and on a factory without render-target support the result is the panic
outcome. -/
theorem create_frame_buffer_spec_witness :
    ((mkFactory capsNoRT).create_frame_buffer = none ↔
      (mkFactory capsNoRT).caps.render_targets_supported = false) ∧
    (((mkFactory capsAll).create_frame_buffer.getD (0, mkFactory capsAll)).2.gls.calls =
      (mkFactory capsAll).gls.calls ++ [.GenFramebuffers
        ((mkFactory capsAll).create_frame_buffer.getD (0, mkFactory capsAll)).1] ∧
      ((mkFactory capsAll).create_frame_buffer.getD (0, mkFactory capsAll)).1 ∈
        ((mkFactory capsAll).create_frame_buffer.getD (0, mkFactory capsAll)).2.frameBuffers) :=
  ⟨(create_frame_buffer_spec (mkFactory capsNoRT)).1,
   (create_frame_buffer_spec (mkFactory capsAll)).2
     ((mkFactory capsAll).create_frame_buffer.getD (0, mkFactory capsAll)).1
     ((mkFactory capsAll).create_frame_buffer.getD (0, mkFactory capsAll)).2
     rfl⟩

/-- Claim C3: when sampler objects are unsupported, `create_sampler`
always succeeds (its type is total: no error, no panic outcome), the
returned handle's native identifier is the zero sentinel, no native call
is issued (the GL state is untouched), and the handle is registered. -/
theorem create_sampler_unsupported (f : Factory) (info : SamplerInfo)
    (h : f.caps.sampler_objects_supported = false) :
    ((f.create_sampler info).1).name = 0 ∧
    ((f.create_sampler info).2).gls = f.gls ∧
    (f.create_sampler info).1 ∈ ((f.create_sampler info).2).samplers := by
  refine ⟨?_, ?_, ?_⟩ <;> simp [Factory.create_sampler, h]

/-- Witness for C3 at a concrete sampler-less factory and sampler
description. -/
theorem create_sampler_unsupported_witness :
    (((mkFactory capsNoSampler).create_sampler
        { filtering := 2, wrap_mode := 3 }).1).name = 0 ∧
    (((mkFactory capsNoSampler).create_sampler
        { filtering := 2, wrap_mode := 3 }).2).gls = (mkFactory capsNoSampler).gls ∧
    ((mkFactory capsNoSampler).create_sampler { filtering := 2, wrap_mode := 3 }).1 ∈
      (((mkFactory capsNoSampler).create_sampler
        { filtering := 2, wrap_mode := 3 }).2).samplers :=
  create_sampler_unsupported (mkFactory capsNoSampler)
    { filtering := 2, wrap_mode := 3 } rfl

/-- Claim C6: `create_array_buffer` returns the capability error with the
factory (hence the trace) unchanged when vertex-array objects are
unsupported, and when supported generates a native vertex-array object
and returns its registered name. -/
theorem create_array_buffer_spec (f : Factory) :
    (f.caps.array_buffer_supported = false →
      f.create_array_buffer = (.error (), f)) ∧
    (f.caps.array_buffer_supported = true →
      (f.create_array_buffer).1 = .ok f.gls.nextName ∧
      ((f.create_array_buffer).2).gls.calls =
        f.gls.calls ++ [.GenVertexArrays f.gls.nextName] ∧
      f.gls.nextName ∈ ((f.create_array_buffer).2).arrayBuffers) := by
  constructor
  · intro h
    simp [Factory.create_array_buffer, h]
  · intro h
    refine ⟨?_, ?_, ?_⟩ <;> simp [Factory.create_array_buffer, h, GlState.gen]

/-- Witness for C6 at concrete factories, one without and one with
vertex-array support. -/
theorem create_array_buffer_spec_witness :
    (mkFactory capsNoVAO).create_array_buffer = (.error (), mkFactory capsNoVAO) ∧
    ((mkFactory capsAll).create_array_buffer).1 = .ok (mkFactory capsAll).gls.nextName :=
  ⟨(create_array_buffer_spec (mkFactory capsNoVAO)).1 rfl,
   ((create_array_buffer_spec (mkFactory capsAll)).2 rfl).1⟩

/-- Claim C7: `update_buffer_raw` requires `offset + data.length ≤ size`
(the buffer's recorded size); when the precondition is violated the debug
assertion fires (result `none`) and no upload is recorded, and whenever
an updated factory is produced the precondition held and exactly the
bind-plus-sub-range-upload pair was issued. -/
theorem update_buffer_raw_spec (f : Factory) (buffer : RawBuffer)
    (data : List Nat) (offset : Nat) :
    (f.update_buffer_raw buffer data offset = none ↔
      buffer.info.size < offset + data.length) ∧
    (∀ f', f.update_buffer_raw buffer data offset = some f' →
      offset + data.length ≤ buffer.info.size ∧
      f'.gls.calls = f.gls.calls ++
        [.BindBuffer (roleTarget buffer.info.role) buffer.name,
         .BufferSubData (roleTarget buffer.info.role) offset data.length data]) := by
  constructor
  · by_cases h : offset + data.length ≤ buffer.info.size
    · simp [Factory.update_buffer_raw, h, Nat.not_lt_of_le h]
    · simp [Factory.update_buffer_raw, h, Nat.lt_of_not_le h]
  · intro f' hf
    by_cases h : offset + data.length ≤ buffer.info.size
    · simp only [Factory.update_buffer_raw, h, if_true, Option.some.injEq] at hf
      subst hf
      exact ⟨h, by simp [update_sub_buffer, GlState.issue]⟩
    · simp [Factory.update_buffer_raw, h] at hf

/-- A size-2 index buffer handle used by the C7 witness. -/
def idxBuf2 : RawBuffer :=
  { name := 4, info := { role := .Index, usage := .Dynamic, size := 2 } }

/-- The factory produced by the in-bounds update of the C7 witness. -/
def ubRes : Factory :=
  ((mkFactory capsAll).update_buffer_raw idxBuf2 [9, 9] 0).getD (mkFactory capsAll)

/-- Witness for C7: on a size-2 buffer, the update of 2 bytes at offset 1
is the assertion-failure outcome, while the in-bounds update of 2 bytes
at offset 0 satisfies the precondition and issues exactly the bind and
sub-range upload. -/
theorem update_buffer_raw_spec_witness :
    ((mkFactory capsAll).update_buffer_raw idxBuf2 [9, 9] 1 = none ↔
      idxBuf2.info.size < 1 + ([9, 9] : List Nat).length) ∧
    (0 + ([9, 9] : List Nat).length ≤ idxBuf2.info.size ∧
      ubRes.gls.calls = (mkFactory capsAll).gls.calls ++
        [.BindBuffer (roleTarget idxBuf2.info.role) idxBuf2.name,
         .BufferSubData (roleTarget idxBuf2.info.role) 0
           ([9, 9] : List Nat).length [9, 9]]) :=
  ⟨(update_buffer_raw_spec (mkFactory capsAll) idxBuf2 [9, 9] 1).1,
   (update_buffer_raw_spec (mkFactory capsAll) idxBuf2 [9, 9] 0).2 ubRes rfl⟩

/-- A surface description with nonzero dimensions and a gamma-converting
format. -/
def surfGamma : SurfaceInfo :=
  { width := 2, height := 2, format := { convert_gamma := true }, aa_mode := none }

/-- A texture description with nonzero dimensions/levels and a
gamma-converting format. -/
def texGamma1 : TextureInfo :=
  { width := 2, height := 2, depth := 1, levels := 1
    kind := .Texture2D, format := { convert_gamma := true } }

/-- Claim C1 counterexample: on a fully-capable device, `create_surface`
applied to a description with width 0 does not return an invalid-parameter
error — it succeeds — and native calls are issued, refuting the claim that
both `create_surface` and `create_texture` reject zero dimensions before
any native call. -/
theorem create_surface_zero_counterexample :
    ((mkFactory capsAll).create_surface surfZero).1 =
      .ok { name := 1, info := surfZero } ∧
    (((mkFactory capsAll).create_surface surfZero).2).gls.calls =
      [.GenRenderbuffers 1, .RenderbufferStorage surfZero] :=
  ⟨rfl, rfl⟩

/-- Claim C1 (amended): `create_texture` rejects every description with
zero width, zero height or zero mip-levels with the invalid-parameter
error, leaving the factory (hence the native trace) unchanged;
`create_surface` performs no such validation. -/
theorem create_texture_zero_rejected (f : Factory) (info : TextureInfo)
    (h : info.width = 0 ∨ info.height = 0 ∨ info.levels = 0) :
    f.create_texture info = (.error (.InvalidInfo info), f) := by
  rcases h with h | h | h <;> simp [Factory.create_texture, h]

/-- Witness for the amended C1 at a concrete zero-width texture
description. -/
theorem create_texture_zero_rejected_witness :
    (mkFactory capsAll).create_texture texZeroGamma =
      (.error (.InvalidInfo texZeroGamma), mkFactory capsAll) :=
  create_texture_zero_rejected (mkFactory capsAll) texZeroGamma (Or.inl rfl)

/-- Claim C5 counterexample: a zero-width texture description with a
gamma-converting format on a device without sRGB support makes
`create_texture` return the invalid-parameter error, not the
unsupported-gamma capability error, refuting the claim for every
gamma-format description. -/
theorem create_texture_gamma_counterexample :
    texZeroGamma.format.does_convert_gamma = true ∧
    (mkFactory capsNoSrgb).caps.srgb_color_supported = false ∧
    ((mkFactory capsNoSrgb).create_texture texZeroGamma).1 =
      .error (.InvalidInfo texZeroGamma) ∧
    ((mkFactory capsNoSrgb).create_texture texZeroGamma).1 ≠
      .error .UnsupportedGamma := by
  refine ⟨rfl, rfl, rfl, ?_⟩
  intro h
  rw [show ((mkFactory capsNoSrgb).create_texture texZeroGamma).1 =
    .error (.InvalidInfo texZeroGamma) from rfl] at h
  simp at h

/-- Claim C5 (amended): `create_surface` returns the unsupported-gamma
error exactly when the format converts gamma and sRGB is unsupported; for
texture descriptions that pass the zero-dimension validation,
`create_texture` returns the unsupported-gamma error under exactly the
same condition — so the gamma capability error arises for no other
reason. -/
theorem gamma_error_iff (f : Factory) (si : SurfaceInfo) (ti : TextureInfo)
    (hw : ti.width ≠ 0) (hh : ti.height ≠ 0) (hl : ti.levels ≠ 0) :
    ((f.create_surface si).1 = .error .UnsupportedGamma ↔
      (si.format.does_convert_gamma = true ∧
        f.caps.srgb_color_supported = false)) ∧
    ((f.create_texture ti).1 = .error .UnsupportedGamma ↔
      (ti.format.does_convert_gamma = true ∧
        f.caps.srgb_color_supported = false)) := by
  constructor
  · by_cases hg : si.format.does_convert_gamma = true <;>
      by_cases hs : f.caps.srgb_color_supported = true <;>
        simp [Factory.create_surface, make_surface, GlState.gen, GlState.issue,
          hg, hs, Bool.not_eq_true] at *
  · by_cases hg : ti.format.does_convert_gamma = true <;>
      by_cases hs : f.caps.srgb_color_supported = true <;>
        by_cases hi : f.caps.immutable_storage_supported = true <;>
          simp [Factory.create_texture, make_with_storage, make_without_storage,
            GlState.gen, GlState.issue, hg, hs, hi, hw, hh, hl,
            Bool.not_eq_true] at *

/-- Witness for the amended C5 at a concrete sRGB-less factory, a
gamma-format surface description and a gamma-format nonzero texture
description. -/
theorem gamma_error_iff_witness :
    (((mkFactory capsNoSrgb).create_surface surfGamma).1 =
        .error .UnsupportedGamma ↔
      (surfGamma.format.does_convert_gamma = true ∧
        (mkFactory capsNoSrgb).caps.srgb_color_supported = false)) ∧
    (((mkFactory capsNoSrgb).create_texture texGamma1).1 =
        .error .UnsupportedGamma ↔
      (texGamma1.format.does_convert_gamma = true ∧
        (mkFactory capsNoSrgb).caps.srgb_color_supported = false)) :=
  gamma_error_iff (mkFactory capsNoSrgb) surfGamma texGamma1
    (by decide) (by decide) (by decide)

end GfxGl
